import Mathlib

/-!
Shallow embedding of the DiffSynth-Studio API image-generation routes
(src/apps/api/routes/flux.py and src/apps/api/routes/sdxl.py), together with
proofs about the pipeline cache, the resource guard, the seeded generation
loop and the artifact store.

Modelling conventions:
* Each of the two route modules owns a module-level dictionary `_model_cache`;
  they are embedded as the two independent cache fields of `ProcState`
  (`fluxCache` for flux.py, `sdxlCache` for sdxl.py).
* Accelerator state is environmental: `Env.allocatedAfterReclaim` is the byte
  count that `torch.cuda.memory_allocated(0)` reports after the
  gc.collect / torch.cuda.empty_cache / torch.cuda.synchronize sequence, and
  `Env.cudaAvailable` is `torch.cuda.is_available()`.  The source compares the
  gigabyte value `allocated = bytes / 1024 ** 3` against the float `1.0`,
  which holds exactly when `1024 ^ 3 < bytes`.
* `uuid.uuid4()` is embedded as a fresh-identifier counter threaded through
  `ProcState.nextUuid`, rendered by the injective decimal rendering `uuidStr`.
* `np.random.randint(0, 10 ** 9)` is embedded as `randDraw % 10 ^ 9` for an
  environmental `randDraw`, consumed once per request when the seed is
  omitted and recorded as `Event.rand`.
* The external generation-library call `pipeline(...)` is an oracle
  `pipe : Nat -> Except String Image` giving each loop iteration either an
  image or a raised exception message; the keyword arguments passed to the
  call, and the `torch.manual_seed(seed + i)` set just before it, are
  recorded as `Event.gen` carrying a `PipeCall`.
* Python exceptions are values of `PyExn`.  Every route handler wraps its
  whole body in `try / except Exception`, re-raising any exception as
  `HTTPException(status_code=500, detail=str(e))`; `str` of an HTTPException
  renders its status and detail, embedded structurally by `strE`/`wrap500`.
* The SDXL loading call (`ModelManager().load_model`,
  `SDXLImagePipeline.from_model_manager`) lives in the external library and is
  invoked unconditionally by the route; it is embedded as constructing a
  fresh handle.
* Wall-clock timing is not modelled; `generation_time` is recorded as 0.
-/

namespace DiffSynth

instance {ε α : Type} [DecidableEq ε] [DecidableEq α] :
    DecidableEq (Except ε α) := fun x y =>
  match x, y with
  | .error a, .error b =>
    if h : a = b then isTrue (h ▸ rfl)
    else isFalse (fun hc => h (by injection hc))
  | .error _, .ok _ => isFalse (fun hc => Except.noConfusion hc)
  | .ok _, .error _ => isFalse (fun hc => Except.noConfusion hc)
  | .ok a, .ok b =>
    if h : a = b then isTrue (h ▸ rfl)
    else isFalse (fun hc => h (by injection hc))

/-- The two interchangeable model families served by the API routes. -/
inductive Family
  | flux
  | sdxl
deriving DecidableEq, Repr

/-- A constructed pipeline object.  `loadId` models Python object identity:
each construction yields a distinct object. -/
structure PipelineHandle where
  family : Family
  loadId : Nat
deriving DecidableEq, Repr

/-- A PIL image, abstracted to the PNG byte string `image.save(-, "PNG")`
would produce for it. -/
structure Image where
  pngBytes : List Nat
deriving DecidableEq, Repr, Inhabited

/-- The keyword arguments of one `pipeline(...)` call, together with the seed
installed by the `torch.manual_seed(seed + i)` statement directly before it.
Fields absent from a route are `none`. -/
structure PipeCall where
  family : Family
  prompt : String
  negative_prompt : String
  seedSet : ℤ
  embedded_guidance : Option ℚ := none
  num_inference_steps : Nat
  height : Nat
  width : Nat
  cfg_scale : ℚ
  tiled : Option Bool := none
  input_image : Option Image := none
  denoising_strength : Option ℚ := none
deriving DecidableEq, Repr

/-- Observable side effects of the routes, in program order. -/
inductive Event
  | clearCache (fam : Family)
  | reclaim
  | load (fam : Family)
  | save (path : String) (bytes : List Nat)
  | rand
  | gen (call : PipeCall)
deriving DecidableEq, Repr

def Event.isLoad : Event → Bool
  | .load _ => true
  | _ => false

def Event.isSave : Event → Bool
  | .save _ _ => true
  | _ => false

def Event.isRand : Event → Bool
  | .rand => true
  | _ => false

/-- A cache interaction: any touch of a `_model_cache` dictionary or of the
accelerator (clear, reclaim, load). -/
def Event.isCacheOp : Event → Bool
  | .clearCache _ => true
  | .reclaim => true
  | .load _ => true
  | _ => false

/-- The pipeline invocations recorded in an event trace, in order. -/
def genCalls (evs : List Event) : List PipeCall :=
  evs.filterMap fun e =>
    match e with
    | .gen c => some c
    | _ => none

/-- Structured embedding of the `detail` payload of an HTTPException.
`wrapped st d` is the `str()` of an HTTPException with status `st` and
detail `d` (starlette renders it as status and detail text);
`gpuNotFreed b` is the formatted message reporting `b` residual allocated
bytes. -/
inductive ErrDetail
  | msg (s : String)
  | gpuNotFreed (allocatedBytes : Nat)
  | wrapped (origStatus : Nat) (d : ErrDetail)
deriving DecidableEq, Repr

/-- A raised Python exception: either a fastapi `HTTPException` or any other
exception carrying its message. -/
inductive PyExn
  | http (status : Nat) (detail : ErrDetail)
  | other (message : String)
deriving DecidableEq, Repr

/-- `str(e)` of an exception, as used by the blanket handlers. -/
def strE : PyExn → ErrDetail
  | .http st d => .wrapped st d
  | .other m => .msg m

/-- The `except Exception as e: raise HTTPException(status_code=500,
detail=str(e))` pattern closing every route handler. -/
def wrap500 (e : PyExn) : PyExn := .http 500 (strE e)

/-- flux.py `_model_cache`: keys "flux_pipeline" and "lora_available". -/
structure FluxCacheDict where
  flux_pipeline : Option PipelineHandle := none
  lora_available : Option Bool := none
deriving DecidableEq, Repr

/-- Process-wide mutable state: the two module-level caches, an object
identity counter for constructed pipelines, and the uuid freshness counter. -/
structure ProcState where
  fluxCache : FluxCacheDict := {}
  sdxlCache : Option PipelineHandle := none
  nextLoadId : Nat := 0
  nextUuid : Nat := 0
deriving DecidableEq, Repr

/-- The state at process start: both caches empty. -/
def initState : ProcState := {}

/-- Environmental facts read by the routes. -/
structure Env where
  cudaAvailable : Bool
  allocatedAfterReclaim : Nat
  fluxModelExists : Bool
  loraExists : Bool
deriving DecidableEq, Repr

def fluxModelNotFoundDetail : String :=
  "FLUX model not found. Please download it first."

def fluxDimsDetail : String :=
  "Width and height must be divisible by 16 for FLUX"

/-- flux.py `get_flux_pipeline`: get-or-create with cache clear, aggressive
reclaim, residual-memory admission check (raise 503 above 1 GiB), model
presence check (raise 404), then pipeline construction and caching. -/
def get_flux_pipeline (env : Env) (s : ProcState) :
    Except PyExn PipelineHandle × ProcState × List Event :=
  match s.fluxCache.flux_pipeline with
  | some p => (.ok p, s, [])
  | none =>
    let s1 : ProcState := { s with fluxCache := {} }
    let evs : List Event := [.clearCache .flux, .reclaim]
    if env.cudaAvailable = true ∧ 1024 ^ 3 < env.allocatedAfterReclaim then
      (.error (.http 503 (.gpuNotFreed env.allocatedAfterReclaim)), s1, evs)
    else if env.fluxModelExists = false then
      (.error (.http 404 (.msg fluxModelNotFoundDetail)), s1, evs)
    else
      let h : PipelineHandle := ⟨.flux, s1.nextLoadId⟩
      let s2 : ProcState := { s1 with
        fluxCache := ⟨some h, some env.loraExists⟩,
        nextLoadId := s1.nextLoadId + 1 }
      (.ok h, s2, evs ++ [.load .flux])

/-- sdxl.py `get_pipeline`: get-or-create with cache clear and aggressive
reclaim, then unconditional construction — the SDXL path performs no
residual-memory admission check and no model presence check in the route. -/
def get_pipeline (_env : Env) (s : ProcState) :
    Except PyExn PipelineHandle × ProcState × List Event :=
  match s.sdxlCache with
  | some p => (.ok p, s, [])
  | none =>
    let s1 : ProcState := { s with sdxlCache := none }
    let evs : List Event := [.clearCache .sdxl, .reclaim]
    let h : PipelineHandle := ⟨.sdxl, s1.nextLoadId⟩
    let s2 : ProcState := { s1 with
      sdxlCache := some h,
      nextLoadId := s1.nextLoadId + 1 }
    (.ok h, s2, evs ++ [.load .sdxl])

def OUTPUT_DIR : String := "outputs/images"

def decDigit (d : Nat) : Char := Char.ofNat (48 + d)

/-- Little-endian decimal digits of `n`, computed with explicit fuel so the
definition is structurally recursive. -/
def decDigitsAux : Nat → Nat → List Char
  | 0, _ => []
  | _ + 1, 0 => []
  | fuel + 1, n + 1 =>
    decDigit ((n + 1) % 10) :: decDigitsAux fuel ((n + 1) / 10)

/-- Rendering of `str(uuid.uuid4())`: the random uuid is embedded as the
fresh counter value, rendered in decimal (an injective rendering is all the
claims rely on). -/
def uuidStr (n : Nat) : String :=
  String.mk (decDigitsAux n n).reverse

/-- Single image of a response: inline data-URI, retrieval URL, filename. -/
structure ImageData where
  base64 : String
  url : String
  filename : String
deriving DecidableEq, Repr

def base64Alphabet : List Char :=
  ['A','B','C','D','E','F','G','H','I','J','K','L','M','N','O','P','Q','R',
   'S','T','U','V','W','X','Y','Z','a','b','c','d','e','f','g','h','i','j',
   'k','l','m','n','o','p','q','r','s','t','u','v','w','x','y','z','0','1',
   '2','3','4','5','6','7','8','9','+','/']

def b64Char (n : Nat) : Char := base64Alphabet.getD n 'A'

/-- Standard base64 of a byte sequence (Python `base64.b64encode`). -/
def base64Encode : List Nat → String
  | [] => ""
  | [a] => String.mk [b64Char (a / 4), b64Char (a % 4 * 16), '=', '=']
  | [a, b] =>
    String.mk [b64Char (a / 4), b64Char (a % 4 * 16 + b / 16),
      b64Char (b % 16 * 4), '=']
  | a :: b :: c :: rest =>
    String.mk [b64Char (a / 4), b64Char (a % 4 * 16 + b / 16),
      b64Char (b % 16 * 4 + c / 64), b64Char (c % 64)] ++ base64Encode rest

/-- `save_and_encode_image` (identical in flux.py and sdxl.py): draw a fresh
uuid, build the filename `model_name ++ "_" ++ id ++ ".png"`, write the PNG
once into the output directory, base64-encode the same PNG bytes into a
data-URI, and return the triple with the `/images/` retrieval URL. -/
def save_and_encode_image (image : Image) (model_name : String)
    (s : ProcState) : ImageData × ProcState × List Event :=
  let image_id := uuidStr s.nextUuid
  let filename := model_name ++ "_" ++ image_id ++ ".png"
  let filepath := OUTPUT_DIR ++ "/" ++ filename
  let img_str := base64Encode image.pngBytes
  let base64_data := "data:image/png;base64," ++ img_str
  let url := "/images/" ++ filename
  (⟨base64_data, url, filename⟩,
   { s with nextUuid := s.nextUuid + 1 },
   [.save filepath image.pngBytes])

/-- flux.py `FluxGenerateRequest` with its pydantic defaults. -/
structure FluxGenerateRequest where
  prompt : String
  negative_prompt : String := ""
  width : Nat := 1024
  height : Nat := 1024
  num_images : Nat := 1
  steps : Nat := 28
  guidance : ℚ := 7 / 2
  cfg_scale : ℚ := 1
  seed : Option ℤ := none
  tiled : Bool := false
deriving DecidableEq, Repr

def sdxlDefaultNegative : String :=
  "nsfw, lowres, bad anatomy, bad hands, text, error, missing fingers, extra digit, fewer digits, cropped, worst quality, low quality, normal quality, jpeg artifacts, signature, watermark, username, blurry"

/-- sdxl.py `GenerateRequest` with its pydantic defaults. -/
structure GenerateRequest where
  prompt : String
  negative_prompt : String := sdxlDefaultNegative
  width : Nat := 1024
  height : Nat := 1024
  num_images : Nat := 1
  steps : Nat := 20
  cfg_scale : ℚ := 15 / 2
  seed : Option ℤ := none
deriving DecidableEq, Repr

/-- flux.py `/transform` form fields. -/
structure FluxTransformForm where
  prompt : String
  negative_prompt : String := ""
  width : Nat := 1024
  height : Nat := 1024
  num_images : Nat := 1
  steps : Nat := 28
  guidance : ℚ := 7 / 2
  cfg_scale : ℚ := 1
  denoising_strength : ℚ := 3 / 4
  seed : Option ℤ := none
  tiled : Bool := false
  image : Image
deriving DecidableEq, Repr

/-- `ImageResponse` of both routes.  Wall-clock timing is not modelled, so
`generation_time` is recorded as 0. -/
structure ImageResponse where
  images : List ImageData
  seed : ℤ
  generation_time : ℚ := 0
deriving DecidableEq, Repr

/-- Per-request environment: facts read from the system, the value the
single `np.random.randint(0, 10 ** 9)` draw would produce (taken modulo
`10 ^ 9` to reflect its range), the generation oracle per loop index, and
the PIL convert/resize operation on the uploaded image. -/
structure GenEnv where
  env : Env
  randDraw : Nat
  pipe : Nat → Except String Image
  resizeRGB : Image → Nat → Nat → Image := fun i _ _ => i

/-- Seed resolution shared by all four handlers: draw once if absent. -/
def resolveSeed (randDraw : Nat) : Option ℤ → ℤ × List Event
  | none => (((randDraw % 10 ^ 9 : Nat) : ℤ), [.rand])
  | some sd => (sd, [])

/-- The base seed a request resolves to. -/
def baseSeed (randDraw : Nat) : Option ℤ → ℤ
  | none => ((randDraw % 10 ^ 9 : Nat) : ℤ)
  | some sd => sd

/-- The per-image generation loop shared by all four handlers:
`for i in range(count): torch.manual_seed(seed + i); pipeline(...);
save_and_encode_image(...)`.  `i` is the current index and the second
argument the remaining iteration count.  A raised generation exception
aborts the remaining iterations. -/
def genLoop (pipe : Nat → Except String Image) (mkCall : Nat → PipeCall)
    (model_name : String) :
    Nat → Nat → ProcState →
    Except String (List ImageData) × ProcState × List Event
  | _, 0, s => (.ok [], s, [])
  | i, r + 1, s =>
    match pipe i with
    | .error m => (.error m, s, [.gen (mkCall i)])
    | .ok img =>
      let res := save_and_encode_image img model_name s
      match genLoop pipe mkCall model_name (i + 1) r res.2.1 with
      | (.ok ds, s2, ev2) =>
        (.ok (res.1 :: ds), s2, .gen (mkCall i) :: (res.2.2 ++ ev2))
      | (.error m, s2, ev2) =>
        (.error m, s2, .gen (mkCall i) :: (res.2.2 ++ ev2))

/-- Keyword arguments of the pipeline call in flux.py `/generate`
(the negative prompt is forwarded only when `cfg_scale > 1.0`). -/
def fluxMkCall (req : FluxGenerateRequest) (seed : ℤ) (i : Nat) : PipeCall :=
  { family := .flux
    prompt := req.prompt
    negative_prompt := if 1 < req.cfg_scale then req.negative_prompt else ""
    seedSet := seed + (i : ℤ)
    embedded_guidance := some req.guidance
    num_inference_steps := req.steps
    height := req.height
    width := req.width
    cfg_scale := req.cfg_scale
    tiled := some req.tiled }

/-- Keyword arguments of the pipeline call in sdxl.py `/generate`
(the negative prompt is forwarded unconditionally). -/
def sdxlMkCall (req : GenerateRequest) (seed : ℤ) (i : Nat) : PipeCall :=
  { family := .sdxl
    prompt := req.prompt
    negative_prompt := req.negative_prompt
    seedSet := seed + (i : ℤ)
    num_inference_steps := req.steps
    height := req.height
    width := req.width
    cfg_scale := req.cfg_scale }

/-- Keyword arguments of the pipeline call in flux.py `/transform`. -/
def fluxTransformMkCall (req : FluxTransformForm) (inputImage : Image)
    (seed : ℤ) (i : Nat) : PipeCall :=
  { family := .flux
    prompt := req.prompt
    negative_prompt := if 1 < req.cfg_scale then req.negative_prompt else ""
    seedSet := seed + (i : ℤ)
    embedded_guidance := some req.guidance
    num_inference_steps := req.steps
    height := req.height
    width := req.width
    cfg_scale := req.cfg_scale
    tiled := some req.tiled
    input_image := some inputImage
    denoising_strength := some req.denoising_strength }

/-- Result of running one route handler. -/
structure Run (α : Type) where
  result : Except PyExn α
  state : ProcState
  events : List Event

/-- Body of flux.py `generate_images` (inside the `try`): dimension
validation, pipeline acquisition, seed resolution, generation loop. -/
def flux_generate_body (genv : GenEnv) (req : FluxGenerateRequest)
    (s : ProcState) :
    Except PyExn ImageResponse × ProcState × List Event :=
  if req.width % 16 ≠ 0 ∨ req.height % 16 ≠ 0 then
    (.error (.http 400 (.msg fluxDimsDetail)), s, [])
  else
    match get_flux_pipeline genv.env s with
    | (.error e, s1, ev1) => (.error e, s1, ev1)
    | (.ok _, s1, ev1) =>
      let sr := resolveSeed genv.randDraw req.seed
      match genLoop genv.pipe (fluxMkCall req sr.1) "flux" 0
          req.num_images s1 with
      | (.ok imgs, s2, ev2) =>
        (.ok { images := imgs, seed := sr.1 }, s2, ev1 ++ sr.2 ++ ev2)
      | (.error m, s2, ev2) =>
        (.error (.other m), s2, ev1 ++ sr.2 ++ ev2)

/-- flux.py `POST /generate` handler: the body wrapped by the blanket
`except Exception` that re-raises as HTTP 500 with `str(e)`. -/
def flux_generate_images (genv : GenEnv) (req : FluxGenerateRequest)
    (s : ProcState) : Run ImageResponse :=
  match flux_generate_body genv req s with
  | (.ok r, s1, ev) => ⟨.ok r, s1, ev⟩
  | (.error e, s1, ev) => ⟨.error (wrap500 e), s1, ev⟩

/-- Body of sdxl.py `generate_images` (inside the `try`): no dimension
validation; pipeline acquisition, seed resolution, generation loop. -/
def sdxl_generate_body (genv : GenEnv) (req : GenerateRequest)
    (s : ProcState) :
    Except PyExn ImageResponse × ProcState × List Event :=
  match get_pipeline genv.env s with
  | (.error e, s1, ev1) => (.error e, s1, ev1)
  | (.ok _, s1, ev1) =>
    let sr := resolveSeed genv.randDraw req.seed
    match genLoop genv.pipe (sdxlMkCall req sr.1) "sdxl" 0
        req.num_images s1 with
    | (.ok imgs, s2, ev2) =>
      (.ok { images := imgs, seed := sr.1 }, s2, ev1 ++ sr.2 ++ ev2)
    | (.error m, s2, ev2) =>
      (.error (.other m), s2, ev1 ++ sr.2 ++ ev2)

/-- sdxl.py `POST /generate` handler with its blanket `except Exception`. -/
def sdxl_generate_images (genv : GenEnv) (req : GenerateRequest)
    (s : ProcState) : Run ImageResponse :=
  match sdxl_generate_body genv req s with
  | (.ok r, s1, ev) => ⟨.ok r, s1, ev⟩
  | (.error e, s1, ev) => ⟨.error (wrap500 e), s1, ev⟩

/-- Body of flux.py `transform_image` (inside the `try`): dimension
validation, pipeline acquisition, input-image preparation, seed resolution,
generation loop (saving under the "flux_img2img" mode name). -/
def flux_transform_body (genv : GenEnv) (req : FluxTransformForm)
    (s : ProcState) :
    Except PyExn ImageResponse × ProcState × List Event :=
  if req.width % 16 ≠ 0 ∨ req.height % 16 ≠ 0 then
    (.error (.http 400 (.msg fluxDimsDetail)), s, [])
  else
    match get_flux_pipeline genv.env s with
    | (.error e, s1, ev1) => (.error e, s1, ev1)
    | (.ok _, s1, ev1) =>
      let inputImage := genv.resizeRGB req.image req.width req.height
      let sr := resolveSeed genv.randDraw req.seed
      match genLoop genv.pipe (fluxTransformMkCall req inputImage sr.1)
          "flux_img2img" 0 req.num_images s1 with
      | (.ok imgs, s2, ev2) =>
        (.ok { images := imgs, seed := sr.1 }, s2, ev1 ++ sr.2 ++ ev2)
      | (.error m, s2, ev2) =>
        (.error (.other m), s2, ev1 ++ sr.2 ++ ev2)

/-- flux.py `POST /transform` handler with its blanket `except Exception`. -/
def flux_transform_image (genv : GenEnv) (req : FluxTransformForm)
    (s : ProcState) : Run ImageResponse :=
  match flux_transform_body genv req s with
  | (.ok r, s1, ev) => ⟨.ok r, s1, ev⟩
  | (.error e, s1, ev) => ⟨.error (wrap500 e), s1, ev⟩

/-- The dimension-divisibility rule each route enforces: flux.py requires
width and height divisible by 16; sdxl.py imposes no divisibility rule. -/
def dimsInvalid : Family → Nat → Nat → Bool
  | .flux, w, h => w % 16 != 0 || h % 16 != 0
  | .sdxl, _, _ => false

/-- One get-or-create call against either module cache. -/
inductive GetAction
  | fluxGet (env : Env)
  | sdxlGet (env : Env)

def runGet (s : ProcState) : GetAction → ProcState
  | .fluxGet env => (get_flux_pipeline env s).2.1
  | .sdxlGet env => (get_pipeline env s).2.1

/-- Run a sequence of get-or-create calls, tracking the process state. -/
def runGets (acts : List GetAction) (s : ProcState) : ProcState :=
  acts.foldl runGet s

/-- Each module slot only ever holds a handle of its own family. -/
def slotsWellFormed (s : ProcState) : Prop :=
  (∀ p, s.fluxCache.flux_pipeline = some p → p.family = .flux) ∧
  (∀ p, s.sdxlCache = some p → p.family = .sdxl)

/-- The condition under which flux.py `get_flux_pipeline` succeeds: a warm
cache, or admission passes and the weight file exists. -/
def fluxAcqOk (env : Env) (s : ProcState) : Prop :=
  s.fluxCache.flux_pipeline ≠ none ∨
    (¬(env.cudaAvailable = true ∧ 1024 ^ 3 < env.allocatedAfterReclaim) ∧
      env.fluxModelExists = true)

/-- The HTTP status of a run that ended in an HTTPException. -/
def statusOf {α : Type} (r : Run α) : Option Nat :=
  match r.result with
  | .error (.http st _) => some st
  | _ => none

/-- C3 conclusion shape: the run succeeds, reports base seed `sd`, issues
the per-image calls with seeds `sd, sd+1, ...` in order, and returns the
artifacts in submission order (their filenames carry the consecutive
identifiers drawn from `u0`). -/
def seedLadderHolds (run : Run ImageResponse) (sd : ℤ) (n : Nat)
    (u0 : Nat) (name : String) : Prop :=
  ∃ resp, run.result = .ok resp ∧ resp.seed = sd ∧
    (genCalls run.events).map PipeCall.seedSet =
      (List.range n).map (fun (i : ℕ) => sd + (i : ℤ)) ∧
    resp.images.map ImageData.filename =
      (List.range n).map
        (fun (i : ℕ) => name ++ "_" ++ uuidStr (u0 + i) ++ ".png")

/-- C10 conclusion shape: the run succeeds, the base seed was drawn exactly
once, lies in `[0, 10 ^ 9)`, equals `draw % 10 ^ 9`, is reported in the
response, and every per-image seed is derived by the `+ i` offset rule. -/
def drawnSeedHolds (run : Run ImageResponse) (draw : Nat) (n : Nat) : Prop :=
  ∃ resp, run.result = .ok resp ∧
    resp.seed = ((draw % 10 ^ 9 : Nat) : ℤ) ∧
    0 ≤ ((draw % 10 ^ 9 : Nat) : ℤ) ∧
    ((draw % 10 ^ 9 : Nat) : ℤ) < 10 ^ 9 ∧
    (run.events.filter Event.isRand).length = 1 ∧
    (genCalls run.events).map PipeCall.seedSet =
      (List.range n).map
        (fun (i : ℕ) => ((draw % 10 ^ 9 : Nat) : ℤ) + (i : ℤ))

/-- C2 conclusion shape: the request is rejected on the dimension rule (the
400 detail is re-wrapped into the blanket 500 by the handler), with an empty
event trace (zero loads, zero evictions, zero accelerator touches) and an
unchanged process state. -/
def rejectedBeforeCache (run : Run ImageResponse) (s : ProcState) : Prop :=
  run.result = .error (.http 500 (.wrapped 400 (.msg fluxDimsDetail))) ∧
  run.events = [] ∧ run.state = s

/-- C6 amended conclusion shape: a failure at loop index `k` surfaces as the
blanket 500 carrying the originating cause, iterations after `k` never run
(`k + 1` pipeline calls in the trace), and the `k` artifacts persisted
before the failure remain written (no rollback event exists). -/
def abortReport (run : Run ImageResponse) (cause : String) (k : Nat) : Prop :=
  run.result = .error (.http 500 (.msg cause)) ∧
  (genCalls run.events).length = k + 1 ∧
  (run.events.filter Event.isSave).length = k

end DiffSynth

namespace DiffSynth

/-! ### Helper lemmas -/

theorem resolveSeed_eq (d : Nat) (o : Option ℤ) :
    resolveSeed d o =
      (baseSeed d o, if o = none then [Event.rand] else []) := by
  cases o <;> simp [resolveSeed, baseSeed]

theorem genCalls_nil : genCalls [] = [] := rfl

theorem genCalls_append (a b : List Event) :
    genCalls (a ++ b) = genCalls a ++ genCalls b := by
  simp [genCalls, List.filterMap_append]

theorem genCalls_cons_gen (c : PipeCall) (evs : List Event) :
    genCalls (Event.gen c :: evs) = c :: genCalls evs := by
  simp [genCalls]

theorem genCalls_save (p : String) (bs : List Nat) (evs : List Event) :
    genCalls (Event.save p bs :: evs) = genCalls evs := by
  simp [genCalls]

theorem decDigitsAux_eq_digits :
    ∀ fuel n, n ≤ fuel →
      decDigitsAux fuel n = (Nat.digits 10 n).map decDigit := by
  intro fuel
  induction fuel with
  | zero =>
    intro n hn
    interval_cases n
    simp [decDigitsAux]
  | succ f ih =>
    intro n hn
    match n with
    | 0 => simp [decDigitsAux]
    | m + 1 =>
      rw [decDigitsAux, Nat.digits_def' (by norm_num : (1 : ℕ) < 10)
        (Nat.succ_pos m), List.map_cons]
      congr 1
      have hlt : (m + 1) / 10 < m + 1 :=
        Nat.div_lt_self (Nat.succ_pos m) (by norm_num)
      exact ih ((m + 1) / 10) (by omega)

theorem decDigit_inj_below :
    ∀ a, a < 10 → ∀ b, b < 10 → decDigit a = decDigit b → a = b := by
  decide

theorem map_decDigit_inj :
    ∀ l1 l2 : List Nat, (∀ x ∈ l1, x < 10) → (∀ x ∈ l2, x < 10) →
      l1.map decDigit = l2.map decDigit → l1 = l2 := by
  intro l1
  induction l1 with
  | nil =>
    intro l2 _ _ h
    cases l2 with
    | nil => rfl
    | cons b t => simp at h
  | cons a t ih =>
    intro l2 h1 h2 h
    cases l2 with
    | nil => simp at h
    | cons b t2 =>
      simp only [List.map_cons, List.cons.injEq] at h
      have ha : a < 10 := h1 a (List.mem_cons_self a t)
      have hb : b < 10 := h2 b (List.mem_cons_self b t2)
      have hab : a = b := decDigit_inj_below a ha b hb h.1
      have ht : t = t2 := by
        refine ih t2 (fun x hx => h1 x (List.mem_cons_of_mem a hx))
          (fun x hx => h2 x (List.mem_cons_of_mem b hx)) h.2
      rw [hab, ht]

theorem uuidStr_eq_digits (n : Nat) :
    uuidStr n = String.mk ((Nat.digits 10 n).map decDigit).reverse := by
  rw [uuidStr, decDigitsAux_eq_digits n n le_rfl]

theorem uuidStr_injective : Function.Injective uuidStr := by
  intro a b h
  rw [uuidStr_eq_digits, uuidStr_eq_digits] at h
  have h2 : ((Nat.digits 10 a).map decDigit).reverse =
      ((Nat.digits 10 b).map decDigit).reverse := by
    injection h
  have h3 := List.reverse_injective h2
  have h4 : Nat.digits 10 a = Nat.digits 10 b :=
    map_decDigit_inj _ _
      (fun x hx => Nat.digits_lt_base (by norm_num) hx)
      (fun x hx => Nat.digits_lt_base (by norm_num) hx) h3
  exact Nat.digits.injective 10 h4

theorem filename_inj (name : String) (a b : Nat)
    (h : name ++ "_" ++ uuidStr a ++ ".png" =
      name ++ "_" ++ uuidStr b ++ ".png") : a = b := by
  have hd := congrArg String.data h
  simp only [String.data_append, List.append_assoc] at hd
  have h1 := List.append_cancel_left hd
  have h2 := List.append_cancel_left h1
  have h3 := List.append_cancel_right h2
  exact uuidStr_injective (String.ext h3)

end DiffSynth

namespace DiffSynth


theorem get_flux_pipeline_ok (env : Env) (s : ProcState)
    (h : fluxAcqOk env s) :
    ∃ p s1 ev1, get_flux_pipeline env s = (.ok p, s1, ev1) ∧
      s1.nextUuid = s.nextUuid ∧ genCalls ev1 = [] ∧
      ev1.filter Event.isSave = [] ∧ ev1.filter Event.isRand = [] := by
  cases hsl : s.fluxCache.flux_pipeline with
  | some p =>
    exact ⟨p, s, [], by simp [get_flux_pipeline, hsl], rfl, rfl, rfl, rfl⟩
  | none =>
    rcases h with hw | ⟨hadm, hex⟩
    · exact absurd hsl hw
    · refine ⟨⟨.flux, s.nextLoadId⟩,
        { s with
          fluxCache := ⟨some ⟨.flux, s.nextLoadId⟩, some env.loraExists⟩,
          nextLoadId := s.nextLoadId + 1 },
        [.clearCache .flux, .reclaim, .load .flux], ?_, rfl, rfl, rfl, rfl⟩
      simp [get_flux_pipeline, hsl, hex]
      intro hc
      by_contra hlt
      exact hadm ⟨hc, by omega⟩

theorem get_pipeline_ok (env : Env) (s : ProcState) :
    ∃ p s1 ev1, get_pipeline env s = (.ok p, s1, ev1) ∧
      s1.nextUuid = s.nextUuid ∧ genCalls ev1 = [] ∧
      ev1.filter Event.isSave = [] ∧ ev1.filter Event.isRand = [] := by
  cases hsl : s.sdxlCache with
  | some p =>
    exact ⟨p, s, [], by simp [get_pipeline, hsl], rfl, rfl, rfl, rfl⟩
  | none =>
    refine ⟨⟨.sdxl, s.nextLoadId⟩,
      { s with
        sdxlCache := some ⟨.sdxl, s.nextLoadId⟩,
        nextLoadId := s.nextLoadId + 1 },
      [.clearCache .sdxl, .reclaim, .load .sdxl], ?_, rfl, rfl, rfl, rfl⟩
    simp [get_pipeline, hsl]

theorem genLoop_ok (pipe : Nat → Except String Image)
    (mkCall : Nat → PipeCall) (name : String) :
    ∀ (r i : Nat) (s : ProcState),
      (∀ j, i ≤ j → j < i + r → ∃ im, pipe j = .ok im) →
      ∃ imgs s2 evs,
        genLoop pipe mkCall name i r s = (.ok imgs, s2, evs) ∧
        imgs.map ImageData.filename =
          (List.range' s.nextUuid r).map
            (fun u => name ++ "_" ++ uuidStr u ++ ".png") ∧
        genCalls evs = (List.range' i r).map mkCall ∧
        (evs.filter Event.isSave).length = r ∧
        evs.filter Event.isRand = [] ∧
        s2.nextUuid = s.nextUuid + r ∧
        s2.fluxCache = s.fluxCache ∧ s2.sdxlCache = s.sdxlCache ∧
        s2.nextLoadId = s.nextLoadId := by
  intro r
  induction r with
  | zero =>
    intro i s _
    exact ⟨[], s, [], rfl, by simp, by simp [genCalls], by simp, rfl,
      by simp, rfl, rfl, rfl⟩
  | succ n ih =>
    intro i s hok
    obtain ⟨im, him⟩ := hok i le_rfl (by omega)
    obtain ⟨imgs, s2, evs, heq, hfn, hgc, hsv, hrn, huu, hfc, hsc, hlid⟩ :=
      ih (i + 1) { s with nextUuid := s.nextUuid + 1 }
        (fun j h1 h2 => hok j (by omega) (by omega))
    dsimp only at heq hfn huu hfc hsc hlid
    refine ⟨⟨"data:image/png;base64," ++ base64Encode im.pngBytes,
        "/images/" ++ (name ++ "_" ++ uuidStr s.nextUuid ++ ".png"),
        name ++ "_" ++ uuidStr s.nextUuid ++ ".png"⟩ :: imgs, s2,
      .gen (mkCall i) ::
        (.save (OUTPUT_DIR ++ "/" ++
            (name ++ "_" ++ uuidStr s.nextUuid ++ ".png")) im.pngBytes ::
          evs), ?_, ?_, ?_, ?_, ?_, ?_, ?_, ?_, ?_⟩
    · simp only [genLoop, him, save_and_encode_image]
      rw [heq]
      rfl
    · rw [List.range'_succ]
      simp only [List.map_cons, hfn]
    · rw [List.range'_succ]
      simp only [genCalls_cons_gen, genCalls_save, hgc, List.map_cons]
    · simp only [List.filter, Event.isSave, hsv, List.length_cons]
    · simp only [List.filter, Event.isSave, Event.isRand, hrn]
    · omega
    · exact hfc
    · exact hsc
    · exact hlid



theorem genLoop_fail (pipe : Nat → Except String Image)
    (mkCall : Nat → PipeCall) (name : String) :
    ∀ (k r i : Nat) (s : ProcState), k < r →
      (∀ j, i ≤ j → j < i + k → ∃ im, pipe j = .ok im) →
      ∀ m, pipe (i + k) = .error m →
      ∃ s2 evs,
        genLoop pipe mkCall name i r s = (.error m, s2, evs) ∧
        genCalls evs = (List.range' i (k + 1)).map mkCall ∧
        (evs.filter Event.isSave).length = k ∧
        s2.nextUuid = s.nextUuid + k := by
  intro k
  induction k with
  | zero =>
    intro r i s hr hok m hm
    obtain ⟨n, rfl⟩ : ∃ n, r = n + 1 := ⟨r - 1, by omega⟩
    rw [Nat.add_zero] at hm
    refine ⟨s, [.gen (mkCall i)], ?_, ?_, ?_, ?_⟩
    · simp only [genLoop, hm]
    · simp [genCalls_cons_gen, genCalls_nil, List.range'_succ]
    · simp [List.filter, Event.isSave]
    · simp
  | succ kk ih =>
    intro r i s hr hok m hm
    obtain ⟨n, rfl⟩ : ∃ n, r = n + 1 := ⟨r - 1, by omega⟩
    obtain ⟨im, him⟩ := hok i le_rfl (by omega)
    have hm2 : pipe (i + 1 + kk) = .error m := by
      rw [show i + 1 + kk = i + (kk + 1) by omega]
      exact hm
    obtain ⟨s2, evs, heq, hgc, hsv, huu⟩ :=
      ih n (i + 1) { s with nextUuid := s.nextUuid + 1 } (by omega)
        (fun j h1 h2 => hok j (by omega) (by omega)) m hm2
    dsimp only at heq huu
    refine ⟨s2,
      .gen (mkCall i) ::
        (.save (OUTPUT_DIR ++ "/" ++
            (name ++ "_" ++ uuidStr s.nextUuid ++ ".png")) im.pngBytes ::
          evs), ?_, ?_, ?_, ?_⟩
    · simp only [genLoop, him, save_and_encode_image]
      rw [heq]
      rfl
    · rw [List.range'_succ]
      simp only [genCalls_cons_gen, genCalls_save, hgc, List.map_cons]
    · simp only [List.filter, Event.isSave, hsv, List.length_cons]
    · omega


end DiffSynth

namespace DiffSynth


theorem genCalls_randOpt (c : Prop) [Decidable c] :
    genCalls (if c then [Event.rand] else []) = [] := by
  split <;> rfl

theorem filter_rand_randOpt (c : Prop) [Decidable c] :
    (if c then [Event.rand] else []).filter Event.isRand =
      (if c then [Event.rand] else []) := by
  split <;> rfl

theorem filter_save_randOpt (c : Prop) [Decidable c] :
    (if c then [Event.rand] else []).filter Event.isSave = [] := by
  split <;> rfl

theorem flux_generate_ok (genv : GenEnv) (req : FluxGenerateRequest)
    (s : ProcState) (hw : req.width % 16 = 0) (hh : req.height % 16 = 0)
    (hacq : fluxAcqOk genv.env s)
    (hok : ∀ j, j < req.num_images → ∃ im, genv.pipe j = .ok im) :
    ∃ imgs,
      (flux_generate_images genv req s).result =
        .ok { images := imgs, seed := baseSeed genv.randDraw req.seed } ∧
      imgs.map ImageData.filename =
        (List.range' s.nextUuid req.num_images).map
          (fun u => "flux" ++ "_" ++ uuidStr u ++ ".png") ∧
      genCalls (flux_generate_images genv req s).events =
        (List.range' 0 req.num_images).map
          (fluxMkCall req (baseSeed genv.randDraw req.seed)) ∧
      (flux_generate_images genv req s).events.filter Event.isRand =
        (if req.seed = none then [Event.rand] else []) ∧
      ((flux_generate_images genv req s).events.filter Event.isSave).length =
        req.num_images := by
  obtain ⟨p, s1, ev1, hget, hu1, hgc1, hsv1, hrn1⟩ :=
    get_flux_pipeline_ok genv.env s hacq
  obtain ⟨imgs, s2, evs, heq, hfn, hgc, hsv, hrn, huu, _, _, _⟩ :=
    genLoop_ok genv.pipe (fluxMkCall req (baseSeed genv.randDraw req.seed))
      "flux" req.num_images 0 s1 (fun j h1 h2 => hok j (by omega))
  have hcond : ¬(req.width % 16 ≠ 0 ∨ req.height % 16 ≠ 0) := by omega
  have hrun : flux_generate_images genv req s =
      ⟨.ok { images := imgs, seed := baseSeed genv.randDraw req.seed }, s2,
        (ev1 ++ (if req.seed = none then [Event.rand] else [])) ++ evs⟩ := by
    simp only [flux_generate_images, flux_generate_body, if_neg hcond, hget,
      resolveSeed_eq, heq]
  refine ⟨imgs, ?_, ?_, ?_, ?_, ?_⟩
  · rw [hrun]
  · rw [hu1] at hfn
    exact hfn
  · rw [hrun]
    simp only [genCalls_append, hgc1, genCalls_randOpt, hgc,
      List.nil_append, List.append_nil]
  · rw [hrun]
    simp only [List.filter_append, hrn1, filter_rand_randOpt, hrn,
      List.nil_append, List.append_nil]
  · rw [hrun]
    simp only [List.filter_append, hsv1, filter_save_randOpt, hsv,
      List.length_append, List.nil_append, List.length_nil]



theorem sdxl_generate_ok (genv : GenEnv) (req : GenerateRequest)
    (s : ProcState)
    (hok : ∀ j, j < req.num_images → ∃ im, genv.pipe j = .ok im) :
    ∃ imgs,
      (sdxl_generate_images genv req s).result =
        .ok { images := imgs, seed := baseSeed genv.randDraw req.seed } ∧
      imgs.map ImageData.filename =
        (List.range' s.nextUuid req.num_images).map
          (fun u => "sdxl" ++ "_" ++ uuidStr u ++ ".png") ∧
      genCalls (sdxl_generate_images genv req s).events =
        (List.range' 0 req.num_images).map
          (sdxlMkCall req (baseSeed genv.randDraw req.seed)) ∧
      (sdxl_generate_images genv req s).events.filter Event.isRand =
        (if req.seed = none then [Event.rand] else []) ∧
      ((sdxl_generate_images genv req s).events.filter Event.isSave).length =
        req.num_images := by
  obtain ⟨p, s1, ev1, hget, hu1, hgc1, hsv1, hrn1⟩ :=
    get_pipeline_ok genv.env s
  obtain ⟨imgs, s2, evs, heq, hfn, hgc, hsv, hrn, huu, _, _, _⟩ :=
    genLoop_ok genv.pipe (sdxlMkCall req (baseSeed genv.randDraw req.seed))
      "sdxl" req.num_images 0 s1 (fun j h1 h2 => hok j (by omega))
  have hrun : sdxl_generate_images genv req s =
      ⟨.ok { images := imgs, seed := baseSeed genv.randDraw req.seed }, s2,
        (ev1 ++ (if req.seed = none then [Event.rand] else [])) ++ evs⟩ := by
    simp only [sdxl_generate_images, sdxl_generate_body, hget,
      resolveSeed_eq, heq]
  refine ⟨imgs, ?_, ?_, ?_, ?_, ?_⟩
  · rw [hrun]
  · rw [hu1] at hfn
    exact hfn
  · rw [hrun]
    simp only [genCalls_append, hgc1, genCalls_randOpt, hgc,
      List.nil_append, List.append_nil]
  · rw [hrun]
    simp only [List.filter_append, hrn1, filter_rand_randOpt, hrn,
      List.nil_append, List.append_nil]
  · rw [hrun]
    simp only [List.filter_append, hsv1, filter_save_randOpt, hsv,
      List.length_append, List.nil_append, List.length_nil]

theorem flux_generate_fail (genv : GenEnv) (req : FluxGenerateRequest)
    (s : ProcState) (k : Nat)
    (hw : req.width % 16 = 0) (hh : req.height % 16 = 0)
    (hacq : fluxAcqOk genv.env s) (hk : k < req.num_images)
    (hok : ∀ j, j < k → ∃ im, genv.pipe j = .ok im)
    (m : String) (hm : genv.pipe k = .error m) :
    (flux_generate_images genv req s).result =
      .error (.http 500 (.msg m)) ∧
    (genCalls (flux_generate_images genv req s).events).length = k + 1 ∧
    ((flux_generate_images genv req s).events.filter Event.isSave).length =
      k := by
  obtain ⟨p, s1, ev1, hget, hu1, hgc1, hsv1, hrn1⟩ :=
    get_flux_pipeline_ok genv.env s hacq
  obtain ⟨s2, evs, heq, hgc, hsv, huu⟩ :=
    genLoop_fail genv.pipe
      (fluxMkCall req (baseSeed genv.randDraw req.seed)) "flux"
      k req.num_images 0 s1 hk (fun j h1 h2 => hok j (by omega)) m
      (by rw [Nat.zero_add]; exact hm)
  have hcond : ¬(req.width % 16 ≠ 0 ∨ req.height % 16 ≠ 0) := by omega
  have hrun : flux_generate_images genv req s =
      ⟨.error (.http 500 (.msg m)), s2,
        (ev1 ++ (if req.seed = none then [Event.rand] else [])) ++ evs⟩ := by
    simp only [flux_generate_images, flux_generate_body, if_neg hcond, hget,
      resolveSeed_eq, heq]
    rfl
  refine ⟨?_, ?_, ?_⟩
  · rw [hrun]
  · rw [hrun]
    simp only [genCalls_append, hgc1, genCalls_randOpt, hgc,
      List.nil_append, List.append_nil, List.length_map, List.length_range']
  · rw [hrun]
    simp only [List.filter_append, hsv1, filter_save_randOpt, hsv,
      List.length_append, List.nil_append, List.length_nil]


end DiffSynth

namespace DiffSynth


theorem get_flux_preserves_sdxl (env : Env) (s : ProcState) :
    ((get_flux_pipeline env s).2.1).sdxlCache = s.sdxlCache := by
  cases hsl : s.fluxCache.flux_pipeline with
  | some p => simp [get_flux_pipeline, hsl]
  | none =>
    simp only [get_flux_pipeline, hsl]
    split_ifs <;> rfl

theorem get_sdxl_preserves_flux (env : Env) (s : ProcState) :
    ((get_pipeline env s).2.1).fluxCache = s.fluxCache := by
  cases hsl : s.sdxlCache with
  | some p => simp [get_pipeline, hsl]
  | none => simp only [get_pipeline, hsl]

theorem slotsWellFormed_runGet {s : ProcState} (h : slotsWellFormed s)
    (a : GetAction) : slotsWellFormed (runGet s a) := by
  obtain ⟨hf, hs⟩ := h
  cases a with
  | fluxGet env =>
    cases hsl : s.fluxCache.flux_pipeline with
    | some p =>
      have hr : runGet s (.fluxGet env) = s := by
        simp [runGet, get_flux_pipeline, hsl]
      rw [hr]
      exact ⟨hf, hs⟩
    | none =>
      by_cases hbig : env.cudaAvailable = true ∧
          1024 ^ 3 < env.allocatedAfterReclaim
      · have hr : runGet s (.fluxGet env) = { s with fluxCache := {} } := by
          simp only [runGet, get_flux_pipeline, hsl]
          rw [if_pos hbig]
        rw [hr]
        exact ⟨fun q hq => by simp at hq, fun q hq => hs q hq⟩
      · by_cases hex : env.fluxModelExists = false
        · have hr : runGet s (.fluxGet env) =
              { s with fluxCache := {} } := by
            simp only [runGet, get_flux_pipeline, hsl]
            rw [if_neg hbig, if_pos hex]
          rw [hr]
          exact ⟨fun q hq => by simp at hq, fun q hq => hs q hq⟩
        · have hr : runGet s (.fluxGet env) =
              { s with
                fluxCache :=
                  ⟨some ⟨.flux, s.nextLoadId⟩, some env.loraExists⟩,
                nextLoadId := s.nextLoadId + 1 } := by
            simp only [runGet, get_flux_pipeline, hsl]
            rw [if_neg hbig, if_neg hex]
          rw [hr]
          refine ⟨fun q hq => ?_, fun q hq => hs q hq⟩
          simp only [Option.some.injEq] at hq
          cases hq
          rfl
  | sdxlGet env =>
    cases hsl : s.sdxlCache with
    | some p =>
      have hr : runGet s (.sdxlGet env) = s := by
        simp [runGet, get_pipeline, hsl]
      rw [hr]
      exact ⟨hf, hs⟩
    | none =>
      have hr : runGet s (.sdxlGet env) =
          { s with
            sdxlCache := some ⟨.sdxl, s.nextLoadId⟩,
            nextLoadId := s.nextLoadId + 1 } := by
        simp only [runGet, get_pipeline, hsl]
      rw [hr]
      refine ⟨fun q hq => hf q hq, fun q hq => ?_⟩
      simp only [Option.some.injEq] at hq
      cases hq
      rfl

theorem slotsWellFormed_runGets (acts : List GetAction) :
    ∀ s : ProcState, slotsWellFormed s → slotsWellFormed (runGets acts s) := by
  induction acts with
  | nil => exact fun s h => h
  | cons a t ih =>
    intro s h
    exact ih _ (slotsWellFormed_runGet h a)

theorem slotsWellFormed_init : slotsWellFormed initState := by
  constructor <;> intro p hp <;> simp [initState] at hp


end DiffSynth

namespace DiffSynth


theorem resolveSeed_no_calls (d : Nat) (o : Option ℤ) :
    genCalls (resolveSeed d o).2 = [] := by
  cases o <;> rfl

theorem get_flux_no_calls (env : Env) (s : ProcState) :
    genCalls (get_flux_pipeline env s).2.2 = [] := by
  cases hsl : s.fluxCache.flux_pipeline with
  | some p => simp [get_flux_pipeline, hsl, genCalls]
  | none =>
    simp only [get_flux_pipeline, hsl]
    split_ifs <;> rfl

theorem get_sdxl_no_calls (env : Env) (s : ProcState) :
    genCalls (get_pipeline env s).2.2 = [] := by
  cases hsl : s.sdxlCache with
  | some p => simp [get_pipeline, hsl, genCalls]
  | none => simp only [get_pipeline, hsl]; rfl

theorem genLoop_calls_from (pipe : Nat → Except String Image)
    (mkCall : Nat → PipeCall) (name : String) :
    ∀ (r i : Nat) (s : ProcState) (c : PipeCall),
      c ∈ genCalls (genLoop pipe mkCall name i r s).2.2 →
      ∃ j, c = mkCall j := by
  intro r
  induction r with
  | zero =>
    intro i s c hc
    simp [genLoop, genCalls] at hc
  | succ n ih =>
    intro i s c hc
    simp only [genLoop] at hc
    cases hp : pipe i with
    | error m =>
      simp only [hp] at hc
      simp [genCalls] at hc
      exact ⟨i, hc⟩
    | ok img =>
      simp only [hp] at hc
      rcases hrec : genLoop pipe mkCall name (i + 1) n
          (save_and_encode_image img name s).2.1 with ⟨lr, s2, ev2⟩
      rw [hrec] at hc
      cases lr with
      | ok imgs =>
        simp only [genCalls_cons_gen] at hc
        rcases List.mem_cons.mp hc with hcc | hcc
        · exact ⟨i, hcc⟩
        · refine ih (i + 1) (save_and_encode_image img name s).2.1 c ?_
          rw [hrec]
          rw [show (save_and_encode_image img name s).2.2 ++ ev2 =
              Event.save (OUTPUT_DIR ++ "/" ++
                (name ++ "_" ++ uuidStr s.nextUuid ++ ".png"))
                img.pngBytes :: ev2 from rfl] at hcc
          rw [genCalls_save] at hcc
          exact hcc
      | error m2 =>
        simp only [genCalls_cons_gen] at hc
        rcases List.mem_cons.mp hc with hcc | hcc
        · exact ⟨i, hcc⟩
        · refine ih (i + 1) (save_and_encode_image img name s).2.1 c ?_
          rw [hrec]
          rw [show (save_and_encode_image img name s).2.2 ++ ev2 =
              Event.save (OUTPUT_DIR ++ "/" ++
                (name ++ "_" ++ uuidStr s.nextUuid ++ ".png"))
                img.pngBytes :: ev2 from rfl] at hcc
          rw [genCalls_save] at hcc
          exact hcc



theorem flux_generate_calls_from (genv : GenEnv) (req : FluxGenerateRequest)
    (s : ProcState) :
    ∀ c ∈ genCalls (flux_generate_images genv req s).events,
      ∃ sd j, c = fluxMkCall req sd j := by
  intro c hc
  by_cases hcond : req.width % 16 ≠ 0 ∨ req.height % 16 ≠ 0
  · simp only [flux_generate_images, flux_generate_body, if_pos hcond] at hc
    simp [genCalls] at hc
  · rcases hget : get_flux_pipeline genv.env s with ⟨res, s1, ev1⟩
    have hev1 : genCalls ev1 = [] := by
      have h0 := get_flux_no_calls genv.env s
      rw [hget] at h0
      exact h0
    cases res with
    | error e =>
      simp only [flux_generate_images, flux_generate_body, if_neg hcond,
        hget] at hc
      rw [hev1] at hc
      simp at hc
    | ok p =>
      rcases hloop : genLoop genv.pipe
          (fluxMkCall req (resolveSeed genv.randDraw req.seed).1) "flux" 0
          req.num_images s1 with ⟨lr, s2, ev2⟩
      have hev2 : ∀ c2 ∈ genCalls ev2,
          ∃ j, c2 = fluxMkCall req (resolveSeed genv.randDraw req.seed).1 j := by
        intro c2 h2
        refine genLoop_calls_from genv.pipe
          (fluxMkCall req (resolveSeed genv.randDraw req.seed).1) "flux"
          req.num_images 0 s1 c2 ?_
        rw [hloop]
        exact h2
      cases lr with
      | ok imgs =>
        simp only [flux_generate_images, flux_generate_body, if_neg hcond,
          hget, hloop] at hc
        rw [genCalls_append, genCalls_append, hev1,
          resolveSeed_no_calls, List.nil_append, List.nil_append] at hc
        obtain ⟨j, hj⟩ := hev2 c hc
        exact ⟨_, j, hj⟩
      | error m =>
        simp only [flux_generate_images, flux_generate_body, if_neg hcond,
          hget, hloop] at hc
        rw [genCalls_append, genCalls_append, hev1,
          resolveSeed_no_calls, List.nil_append, List.nil_append] at hc
        obtain ⟨j, hj⟩ := hev2 c hc
        exact ⟨_, j, hj⟩

theorem flux_transform_calls_from (genv : GenEnv) (req : FluxTransformForm)
    (s : ProcState) :
    ∀ c ∈ genCalls (flux_transform_image genv req s).events,
      ∃ sd j, c = fluxTransformMkCall req
        (genv.resizeRGB req.image req.width req.height) sd j := by
  intro c hc
  by_cases hcond : req.width % 16 ≠ 0 ∨ req.height % 16 ≠ 0
  · simp only [flux_transform_image, flux_transform_body, if_pos hcond] at hc
    simp [genCalls] at hc
  · rcases hget : get_flux_pipeline genv.env s with ⟨res, s1, ev1⟩
    have hev1 : genCalls ev1 = [] := by
      have h0 := get_flux_no_calls genv.env s
      rw [hget] at h0
      exact h0
    cases res with
    | error e =>
      simp only [flux_transform_image, flux_transform_body, if_neg hcond,
        hget] at hc
      rw [hev1] at hc
      simp at hc
    | ok p =>
      rcases hloop : genLoop genv.pipe
          (fluxTransformMkCall req
            (genv.resizeRGB req.image req.width req.height)
            (resolveSeed genv.randDraw req.seed).1) "flux_img2img" 0
          req.num_images s1 with ⟨lr, s2, ev2⟩
      have hev2 : ∀ c2 ∈ genCalls ev2,
          ∃ j, c2 = fluxTransformMkCall req
            (genv.resizeRGB req.image req.width req.height)
            (resolveSeed genv.randDraw req.seed).1 j := by
        intro c2 h2
        refine genLoop_calls_from genv.pipe
          (fluxTransformMkCall req
            (genv.resizeRGB req.image req.width req.height)
            (resolveSeed genv.randDraw req.seed).1) "flux_img2img"
          req.num_images 0 s1 c2 ?_
        rw [hloop]
        exact h2
      cases lr with
      | ok imgs =>
        simp only [flux_transform_image, flux_transform_body, if_neg hcond,
          hget, hloop] at hc
        rw [genCalls_append, genCalls_append, hev1,
          resolveSeed_no_calls, List.nil_append, List.nil_append] at hc
        obtain ⟨j, hj⟩ := hev2 c hc
        exact ⟨_, j, hj⟩
      | error m =>
        simp only [flux_transform_image, flux_transform_body, if_neg hcond,
          hget, hloop] at hc
        rw [genCalls_append, genCalls_append, hev1,
          resolveSeed_no_calls, List.nil_append, List.nil_append] at hc
        obtain ⟨j, hj⟩ := hev2 c hc
        exact ⟨_, j, hj⟩

theorem sdxl_generate_calls_from (genv : GenEnv) (req : GenerateRequest)
    (s : ProcState) :
    ∀ c ∈ genCalls (sdxl_generate_images genv req s).events,
      ∃ sd j, c = sdxlMkCall req sd j := by
  intro c hc
  rcases hget : get_pipeline genv.env s with ⟨res, s1, ev1⟩
  have hev1 : genCalls ev1 = [] := by
    have h0 := get_sdxl_no_calls genv.env s
    rw [hget] at h0
    exact h0
  cases res with
  | error e =>
    simp only [sdxl_generate_images, sdxl_generate_body, hget] at hc
    rw [hev1] at hc
    simp at hc
  | ok p =>
    rcases hloop : genLoop genv.pipe
        (sdxlMkCall req (resolveSeed genv.randDraw req.seed).1) "sdxl" 0
        req.num_images s1 with ⟨lr, s2, ev2⟩
    have hev2 : ∀ c2 ∈ genCalls ev2,
        ∃ j, c2 = sdxlMkCall req (resolveSeed genv.randDraw req.seed).1 j := by
      intro c2 h2
      refine genLoop_calls_from genv.pipe
        (sdxlMkCall req (resolveSeed genv.randDraw req.seed).1) "sdxl"
        req.num_images 0 s1 c2 ?_
      rw [hloop]
      exact h2
    cases lr with
    | ok imgs =>
      simp only [sdxl_generate_images, sdxl_generate_body, hget, hloop] at hc
      rw [genCalls_append, genCalls_append, hev1,
        resolveSeed_no_calls, List.nil_append, List.nil_append] at hc
      obtain ⟨j, hj⟩ := hev2 c hc
      exact ⟨_, j, hj⟩
    | error m =>
      simp only [sdxl_generate_images, sdxl_generate_body, hget, hloop] at hc
      rw [genCalls_append, genCalls_append, hev1,
        resolveSeed_no_calls, List.nil_append, List.nil_append] at hc
      obtain ⟨j, hj⟩ := hev2 c hc
      exact ⟨_, j, hj⟩


end DiffSynth

namespace DiffSynth

/-! ### Claim theorems -/

/-- C1 counterexample: the claim "at most one pipeline handle is resident
across the whole process, and a request for a different family fully drains
the resident handle before loading" is false.  Starting from the empty
process state, an SDXL get-or-create followed by a FLUX get-or-create leaves
BOTH module caches holding a resident handle simultaneously: the two routes
have independent `_model_cache` dictionaries, and the FLUX path never
releases the SDXL handle. -/
theorem c1_dual_residency_counterexample :
    (runGets [.sdxlGet ⟨true, 0, true, false⟩,
        .fluxGet ⟨true, 0, true, false⟩] initState).sdxlCache =
      some ⟨.sdxl, 0⟩ ∧
    (runGets [.sdxlGet ⟨true, 0, true, false⟩,
        .fluxGet ⟨true, 0, true, false⟩] initState).fluxCache.flux_pipeline =
      some ⟨.flux, 1⟩ := by
  decide

/-- C1 (amended): each route module maintains its own single-slot cache
whose handle is always of that module's family, and the two slots are fully
independent — a get-or-create for one family never touches (in particular
never drains) the other module's resident handle, so dual residency across
families is possible. -/
theorem c1_per_module_single_residency :
    (∀ acts : List GetAction, slotsWellFormed (runGets acts initState)) ∧
    (∀ env s, ((get_flux_pipeline env s).2.1).sdxlCache = s.sdxlCache) ∧
    (∀ env s, ((get_pipeline env s).2.1).fluxCache = s.fluxCache) :=
  ⟨fun acts => slotsWellFormed_runGets acts initState slotsWellFormed_init,
    get_flux_preserves_sdxl, get_sdxl_preserves_flux⟩

/-- Witness for C1 (amended) at a concrete action sequence. -/
theorem c1_per_module_single_residency_witness :
    slotsWellFormed (runGets [.sdxlGet ⟨true, 0, true, false⟩,
      .fluxGet ⟨true, 0, true, false⟩] initState) :=
  c1_per_module_single_residency.1
    [.sdxlGet ⟨true, 0, true, false⟩, .fluxGet ⟨true, 0, true, false⟩]

/-- C2: a FLUX request (generate or transform) whose width or height
violates the divisible-by-16 rule is rejected before any cache interaction:
the event trace is empty (zero loads, zero evictions, zero accelerator
touches), the process state is unchanged, and the result is the validation
rejection (the 400 dimension detail, re-wrapped by the blanket handler).
The SDXL route defines no divisibility rule, so no request violates it. -/
theorem c2_dims_rejected_before_cache (genv : GenEnv)
    (req : FluxGenerateRequest) (treq : FluxTransformForm) (s : ProcState)
    (hbad : dimsInvalid .flux req.width req.height = true)
    (htbad : dimsInvalid .flux treq.width treq.height = true) :
    rejectedBeforeCache (flux_generate_images genv req s) s ∧
    rejectedBeforeCache (flux_transform_image genv treq s) s ∧
    (∀ w h, dimsInvalid .sdxl w h = false) := by
  have hcond : req.width % 16 ≠ 0 ∨ req.height % 16 ≠ 0 := by
    simpa [dimsInvalid] using hbad
  have htcond : treq.width % 16 ≠ 0 ∨ treq.height % 16 ≠ 0 := by
    simpa [dimsInvalid] using htbad
  refine ⟨?_, ?_, fun w h => rfl⟩
  · refine ⟨?_, ?_, ?_⟩ <;>
      simp [flux_generate_images, flux_generate_body, if_pos hcond,
        wrap500, strE]
  · refine ⟨?_, ?_, ?_⟩ <;>
      simp [flux_transform_image, flux_transform_body, if_pos htcond,
        wrap500, strE]

/-- Witness for C2 at width 1000 (not divisible by 16). -/
theorem c2_dims_rejected_before_cache_witness :
    rejectedBeforeCache
      (flux_generate_images
        ⟨⟨true, 0, true, false⟩, 0, fun _ => .ok ⟨[]⟩, fun i _ _ => i⟩
        { prompt := "p", width := 1000 } initState) initState ∧
    rejectedBeforeCache
      (flux_transform_image
        ⟨⟨true, 0, true, false⟩, 0, fun _ => .ok ⟨[]⟩, fun i _ _ => i⟩
        { prompt := "p", width := 1000, image := ⟨[]⟩ } initState)
      initState ∧
    (∀ w h, dimsInvalid .sdxl w h = false) :=
  c2_dims_rejected_before_cache
    ⟨⟨true, 0, true, false⟩, 0, fun _ => .ok ⟨[]⟩, fun i _ _ => i⟩
    { prompt := "p", width := 1000 }
    { prompt := "p", width := 1000, image := ⟨[]⟩ } initState
    (by decide) (by decide)

/-- C4 counterexample: the claim says the reclaim-then-admission-check
sequence runs on every family's cold load path and that a residual above
the threshold denies the request without constructing a pipeline.  The SDXL
path violates it: with 3 GiB still allocated after reclaim, the SDXL
cold-cache load constructs and caches a pipeline anyway — its trace is
clear, reclaim, load, with no admission check and no denial. -/
theorem c4_sdxl_no_admission_check_counterexample :
    (get_pipeline ⟨true, 3 * 1024 ^ 3, true, false⟩ initState).1 =
      .ok ⟨.sdxl, 0⟩ ∧
    (get_pipeline ⟨true, 3 * 1024 ^ 3, true, false⟩ initState).2.2 =
      [.clearCache .sdxl, .reclaim, .load .sdxl] := by
  decide

/-- C4 (amended): only the FLUX load path guards admission.  On a cold FLUX
cache the route reclaims first (trace: clear then reclaim) and then checks
admission; if residual allocated memory still exceeds the 1 GiB threshold
the request fails with a 503 denial reporting the exact residual byte
count, without retrying and without any load event.  The SDXL load path
reclaims but performs no admission check: it always emits a load event. -/
theorem c4_reclaim_admission_amended (env : Env) (s : ProcState)
    (hcold : s.fluxCache.flux_pipeline = none)
    (hcuda : env.cudaAvailable = true)
    (hbig : 1024 ^ 3 < env.allocatedAfterReclaim) :
    get_flux_pipeline env s =
      (.error (.http 503 (.gpuNotFreed env.allocatedAfterReclaim)),
        { s with fluxCache := {} }, [.clearCache .flux, .reclaim]) ∧
    (∀ (env2 : Env) (s2 : ProcState), s2.sdxlCache = none →
      (get_pipeline env2 s2).2.2 =
        [.clearCache .sdxl, .reclaim, .load .sdxl]) := by
  constructor
  · simp only [get_flux_pipeline, hcold]
    rw [if_pos ⟨hcuda, hbig⟩]
  · intro env2 s2 h2
    simp only [get_pipeline, h2]
    rfl

/-- Witness for C4 (amended) at 2 GiB residual on the empty state. -/
theorem c4_reclaim_admission_amended_witness :
    get_flux_pipeline ⟨true, 2 * 1024 ^ 3, true, false⟩ initState =
      (.error (.http 503 (.gpuNotFreed (2 * 1024 ^ 3))),
        { initState with fluxCache := {} },
        [.clearCache .flux, .reclaim]) ∧
    (∀ (env2 : Env) (s2 : ProcState), s2.sdxlCache = none →
      (get_pipeline env2 s2).2.2 =
        [.clearCache .sdxl, .reclaim, .load .sdxl]) :=
  c4_reclaim_admission_amended ⟨true, 2 * 1024 ^ 3, true, false⟩ initState
    rfl rfl (by norm_num)

/-- C5: the three error sources are NOT surfaced with distinguishable
kinds.  The blanket `except Exception` in the FLUX generate handler
re-raises every in-handler exception as HTTP 500, so a dimension validation
failure (raised as 400), a missing weight file (raised as 404) and an
internal generation failure all reach the caller with the same status 500,
differing only in the detail text into which the original exception was
stringified. -/
theorem c5_error_kinds_collapse_to_500 :
    (flux_generate_images
        ⟨⟨true, 0, true, false⟩, 0, fun _ => .ok ⟨[]⟩, fun i _ _ => i⟩
        { prompt := "p", width := 1000 } initState).result =
      .error (.http 500 (.wrapped 400 (.msg fluxDimsDetail))) ∧
    (flux_generate_images
        ⟨⟨true, 0, false, false⟩, 0, fun _ => .ok ⟨[]⟩, fun i _ _ => i⟩
        { prompt := "p" } initState).result =
      .error (.http 500 (.wrapped 404 (.msg fluxModelNotFoundDetail))) ∧
    (flux_generate_images
        ⟨⟨true, 0, true, false⟩, 0, fun _ => .error "boom", fun i _ _ => i⟩
        { prompt := "p" } initState).result =
      .error (.http 500 (.msg "boom")) ∧
    statusOf (flux_generate_images
        ⟨⟨true, 0, true, false⟩, 0, fun _ => .ok ⟨[]⟩, fun i _ _ => i⟩
        { prompt := "p", width := 1000 } initState) = some 500 ∧
    statusOf (flux_generate_images
        ⟨⟨true, 0, false, false⟩, 0, fun _ => .ok ⟨[]⟩, fun i _ _ => i⟩
        { prompt := "p" } initState) = some 500 ∧
    statusOf (flux_generate_images
        ⟨⟨true, 0, true, false⟩, 0, fun _ => .error "boom", fun i _ _ => i⟩
        { prompt := "p" } initState) = some 500 := by
  decide

end DiffSynth

namespace DiffSynth

/-- C6 counterexample: the claim says a mid-batch failure returns a result
carrying the number of images already produced and persisted.  It does not:
a 3-image FLUX batch failing at image 0 (zero artifacts persisted) and one
failing at image 1 (one artifact persisted) return the IDENTICAL error
value — HTTP 500 with only the originating cause — so the produced count is
not part of the result. -/
theorem c6_produced_count_not_reported_counterexample :
    (flux_generate_images
        ⟨⟨true, 0, true, false⟩, 0, fun _ => .error "boom", fun i _ _ => i⟩
        { prompt := "p", seed := some 5, num_images := 3 }
        initState).result =
      .error (.http 500 (.msg "boom")) ∧
    ((flux_generate_images
        ⟨⟨true, 0, true, false⟩, 0, fun _ => .error "boom", fun i _ _ => i⟩
        { prompt := "p", seed := some 5, num_images := 3 }
        initState).events.filter Event.isSave).length = 0 ∧
    (flux_generate_images
        ⟨⟨true, 0, true, false⟩, 0,
          fun i => if i = 0 then .ok ⟨[]⟩ else .error "boom",
          fun i _ _ => i⟩
        { prompt := "p", seed := some 5, num_images := 3 }
        initState).result =
      .error (.http 500 (.msg "boom")) ∧
    ((flux_generate_images
        ⟨⟨true, 0, true, false⟩, 0,
          fun i => if i = 0 then .ok ⟨[]⟩ else .error "boom",
          fun i _ _ => i⟩
        { prompt := "p", seed := some 5, num_images := 3 }
        initState).events.filter Event.isSave).length = 1 := by
  decide

/-- C6 (amended): if generation of image k of a FLUX batch fails, the
remaining iterations are not executed (exactly k + 1 pipeline calls occur),
the handler returns an HTTP 500 failure carrying the originating cause, and
the k artifacts persisted before the failure stay written (their save
events remain in the trace and nothing removes them) — but the count of
already-produced images is not included in the result. -/
theorem c6_abort_on_failure_amended (genv : GenEnv)
    (req : FluxGenerateRequest) (s : ProcState) (k : Nat) (m : String)
    (hw : req.width % 16 = 0) (hh : req.height % 16 = 0)
    (hacq : fluxAcqOk genv.env s) (hk : k < req.num_images)
    (hok : ∀ j, j < k → ∃ im, genv.pipe j = .ok im)
    (hm : genv.pipe k = .error m) :
    abortReport (flux_generate_images genv req s) m k := by
  obtain ⟨h1, h2, h3⟩ :=
    flux_generate_fail genv req s k hw hh hacq hk hok m hm
  exact ⟨h1, h2, h3⟩

/-- Witness for C6 (amended): failure at image 1 of a 3-image batch. -/
theorem c6_abort_on_failure_amended_witness :
    abortReport
      (flux_generate_images
        ⟨⟨true, 0, true, false⟩, 0,
          fun i => if i = 0 then .ok ⟨[]⟩ else .error "boom",
          fun i _ _ => i⟩
        { prompt := "p", seed := some 5, num_images := 3 } initState)
      "boom" 1 :=
  c6_abort_on_failure_amended
    ⟨⟨true, 0, true, false⟩, 0,
      fun i => if i = 0 then .ok ⟨[]⟩ else .error "boom", fun i _ _ => i⟩
    { prompt := "p", seed := some 5, num_images := 3 } initState 1 "boom"
    (by decide) (by decide) (Or.inr ⟨by decide, rfl⟩) (by decide)
    (fun j hj => ⟨⟨[]⟩, by
      have hj0 : j = 0 := by omega
      subst hj0
      rfl⟩)
    rfl

/-- C7 counterexample: the claim says the negative prompt forwarded to any
generation invocation equals the request negative prompt when cfg_scale
exceeds 1.0 and the empty string otherwise.  The SDXL route forwards it
unconditionally: at cfg_scale = 1.0 (not greater than 1.0) the forwarded
negative prompt is "np", not "". -/
theorem c7_sdxl_negative_prompt_counterexample :
    (genCalls (sdxl_generate_images
        ⟨⟨true, 0, true, false⟩, 0, fun _ => .ok ⟨[]⟩, fun i _ _ => i⟩
        { prompt := "p", negative_prompt := "np", cfg_scale := 1,
          seed := some 0, num_images := 1 } initState).events).map
      PipeCall.negative_prompt = ["np"] ∧
    (genCalls (sdxl_generate_images
        ⟨⟨true, 0, true, false⟩, 0, fun _ => .ok ⟨[]⟩, fun i _ _ => i⟩
        { prompt := "p", negative_prompt := "np", cfg_scale := 1,
          seed := some 0, num_images := 1 } initState).events).map
      PipeCall.negative_prompt ≠ [""] := by
  constructor
  · decide
  · decide

/-- C7 (amended): the cfg-scale gating of the negative prompt applies to
the FLUX invocations only — every pipeline call of the FLUX generate and
transform handlers forwards the request negative prompt when
cfg_scale > 1.0 and the empty string otherwise, while every pipeline call
of the SDXL generate handler forwards the request negative prompt
unconditionally. -/
theorem c7_negative_prompt_gating_amended (genv : GenEnv)
    (freq : FluxGenerateRequest) (treq : FluxTransformForm)
    (sreq : GenerateRequest) (s : ProcState) :
    ((genCalls (flux_generate_images genv freq s).events).all
      (fun c => c.negative_prompt ==
        if 1 < freq.cfg_scale then freq.negative_prompt else "")) = true ∧
    ((genCalls (flux_transform_image genv treq s).events).all
      (fun c => c.negative_prompt ==
        if 1 < treq.cfg_scale then treq.negative_prompt else "")) = true ∧
    ((genCalls (sdxl_generate_images genv sreq s).events).all
      (fun c => c.negative_prompt == sreq.negative_prompt)) = true := by
  refine ⟨?_, ?_, ?_⟩
  · rw [List.all_eq_true]
    intro c hc
    obtain ⟨sd, j, rfl⟩ := flux_generate_calls_from genv freq s c hc
    simp [fluxMkCall]
  · rw [List.all_eq_true]
    intro c hc
    obtain ⟨sd, j, rfl⟩ := flux_transform_calls_from genv treq s c hc
    simp [fluxTransformMkCall]
  · rw [List.all_eq_true]
    intro c hc
    obtain ⟨sd, j, rfl⟩ := sdxl_generate_calls_from genv sreq s c hc
    simp [sdxlMkCall]

/-- Witness for C7 (amended) on concrete one-image runs. -/
theorem c7_negative_prompt_gating_amended_witness :
    ((genCalls (flux_generate_images
        ⟨⟨true, 0, true, false⟩, 0, fun _ => .ok ⟨[]⟩, fun i _ _ => i⟩
        { prompt := "p", negative_prompt := "np", seed := some 0 }
        initState).events).all
      (fun c => c.negative_prompt ==
        if (1 : ℚ) <
            ({ prompt := "p", negative_prompt := "np", seed := some 0 } :
              FluxGenerateRequest).cfg_scale
          then "np" else "")) = true :=
  (c7_negative_prompt_gating_amended
    ⟨⟨true, 0, true, false⟩, 0, fun _ => .ok ⟨[]⟩, fun i _ _ => i⟩
    { prompt := "p", negative_prompt := "np", seed := some 0 }
    { prompt := "p", image := ⟨[]⟩ } { prompt := "p" } initState).1

end DiffSynth

namespace DiffSynth

/-- C8: get-or-create is idempotent on a warm cache for both families.  If
a get-or-create call succeeds with handle p (whether by hit or by cold
load), an immediately following call for the same family with no
intervening family switch returns the identical handle p with an empty
event trace (zero additional load operations) and leaves the state
unchanged. -/
theorem c8_warm_cache_idempotent (env : Env) (s : ProcState) :
    (∀ p s1 ev1, get_flux_pipeline env s = (.ok p, s1, ev1) →
      get_flux_pipeline env s1 = (.ok p, s1, [])) ∧
    (∀ p s1 ev1, get_pipeline env s = (.ok p, s1, ev1) →
      get_pipeline env s1 = (.ok p, s1, [])) := by
  constructor
  · intro p s1 ev1 heq
    cases hsl : s.fluxCache.flux_pipeline with
    | some q =>
      simp only [get_flux_pipeline, hsl, Prod.mk.injEq,
        Except.ok.injEq] at heq
      obtain ⟨hpq, hs1, hev⟩ := heq
      subst hpq
      subst hs1
      simp [get_flux_pipeline, hsl]
    | none =>
      by_cases hbig : env.cudaAvailable = true ∧
          1024 ^ 3 < env.allocatedAfterReclaim
      · simp only [get_flux_pipeline, hsl] at heq
        rw [if_pos hbig] at heq
        simp at heq
      · by_cases hex : env.fluxModelExists = false
        · simp only [get_flux_pipeline, hsl] at heq
          rw [if_neg hbig, if_pos hex] at heq
          simp at heq
        · simp only [get_flux_pipeline, hsl] at heq
          rw [if_neg hbig, if_neg hex] at heq
          simp only [Prod.mk.injEq, Except.ok.injEq] at heq
          obtain ⟨hpq, hs1, hev⟩ := heq
          subst hpq
          subst hs1
          simp [get_flux_pipeline]
  · intro p s1 ev1 heq
    cases hsl : s.sdxlCache with
    | some q =>
      simp only [get_pipeline, hsl, Prod.mk.injEq, Except.ok.injEq] at heq
      obtain ⟨hpq, hs1, hev⟩ := heq
      subst hpq
      subst hs1
      simp [get_pipeline, hsl]
    | none =>
      simp only [get_pipeline, hsl, Prod.mk.injEq, Except.ok.injEq] at heq
      obtain ⟨hpq, hs1, hev⟩ := heq
      subst hpq
      subst hs1
      simp [get_pipeline]

/-- Witness for C8: after a cold FLUX load on the empty state, the second
call is a pure cache hit returning the same handle with no events. -/
theorem c8_warm_cache_idempotent_witness :
    get_flux_pipeline ⟨true, 0, true, false⟩
      { fluxCache := ⟨some ⟨.flux, 0⟩, some false⟩, sdxlCache := none,
        nextLoadId := 1, nextUuid := 0 } =
      (.ok ⟨.flux, 0⟩,
        { fluxCache := ⟨some ⟨.flux, 0⟩, some false⟩, sdxlCache := none,
          nextLoadId := 1, nextUuid := 0 }, []) :=
  (c8_warm_cache_idempotent ⟨true, 0, true, false⟩ initState).1
    ⟨.flux, 0⟩
    { fluxCache := ⟨some ⟨.flux, 0⟩, some false⟩, sdxlCache := none,
      nextLoadId := 1, nextUuid := 0 }
    [.clearCache .flux, .reclaim, .load .flux] (by decide)

/-- C9: the artifact store draws a fresh identifier, builds the filename as
the family/mode name, an underscore, the identifier and ".png", performs
exactly one write of the PNG bytes into the output directory under that
filename, returns the "/images/" retrieval URL for that filename and a
data-URI base64 encoding of the same PNG bytes, and never repeats an
identifier: the rendering is injective and the very next call yields a
different filename. -/
theorem c9_artifact_store (image : Image) (model_name : String)
    (s : ProcState) (image2 : Image) :
    (save_and_encode_image image model_name s).1.filename =
      model_name ++ "_" ++ uuidStr s.nextUuid ++ ".png" ∧
    (save_and_encode_image image model_name s).1.url =
      "/images/" ++ (save_and_encode_image image model_name s).1.filename ∧
    (save_and_encode_image image model_name s).1.base64 =
      "data:image/png;base64," ++ base64Encode image.pngBytes ∧
    (save_and_encode_image image model_name s).2.2 =
      [.save (OUTPUT_DIR ++ "/" ++
          (save_and_encode_image image model_name s).1.filename)
        image.pngBytes] ∧
    (save_and_encode_image image model_name s).2.1.nextUuid =
      s.nextUuid + 1 ∧
    Function.Injective uuidStr ∧
    (save_and_encode_image image2 model_name
        (save_and_encode_image image model_name s).2.1).1.filename ≠
      (save_and_encode_image image model_name s).1.filename := by
  refine ⟨rfl, rfl, rfl, rfl, rfl, uuidStr_injective, ?_⟩
  intro hcol
  have hcol2 : model_name ++ "_" ++ uuidStr (s.nextUuid + 1) ++ ".png" =
      model_name ++ "_" ++ uuidStr s.nextUuid ++ ".png" := hcol
  have := filename_inj model_name (s.nextUuid + 1) s.nextUuid hcol2
  omega

/-- Witness for C9 on a concrete image and state. -/
theorem c9_artifact_store_witness :
    (save_and_encode_image ⟨[3, 7]⟩ "flux" initState).1.filename =
      "flux" ++ "_" ++ uuidStr 0 ++ ".png" ∧
    (save_and_encode_image ⟨[3, 7]⟩ "flux" initState).1.url =
      "/images/" ++
        (save_and_encode_image ⟨[3, 7]⟩ "flux" initState).1.filename ∧
    (save_and_encode_image ⟨[3, 7]⟩ "flux" initState).1.base64 =
      "data:image/png;base64," ++ base64Encode [3, 7] ∧
    (save_and_encode_image ⟨[3, 7]⟩ "flux" initState).2.2 =
      [.save (OUTPUT_DIR ++ "/" ++
          (save_and_encode_image ⟨[3, 7]⟩ "flux" initState).1.filename)
        [3, 7]] ∧
    (save_and_encode_image ⟨[3, 7]⟩ "flux" initState).2.1.nextUuid =
      0 + 1 ∧
    Function.Injective uuidStr ∧
    (save_and_encode_image ⟨[9]⟩ "flux"
        (save_and_encode_image ⟨[3, 7]⟩ "flux" initState).2.1).1.filename ≠
      (save_and_encode_image ⟨[3, 7]⟩ "flux" initState).1.filename :=
  c9_artifact_store ⟨[3, 7]⟩ "flux" initState ⟨[9]⟩

end DiffSynth

namespace DiffSynth

/-- C3: for every valid request with an explicit seed sd and image count n
(on either family), the per-image pipeline calls install the seeds
sd, sd + 1, ..., sd + n - 1 in submission order, the returned artifacts
appear in that same order (their filenames carry the consecutively drawn
identifiers), and the response reports base seed sd. -/
theorem c3_explicit_seed_ladder (genv : GenEnv)
    (freq : FluxGenerateRequest) (sreq : GenerateRequest) (s : ProcState)
    (sd : ℤ) (n : Nat)
    (hfs : freq.seed = some sd) (hfcount : freq.num_images = n)
    (hw : freq.width % 16 = 0) (hh : freq.height % 16 = 0)
    (hacq : fluxAcqOk genv.env s)
    (hok : ∀ j, j < n → ∃ im, genv.pipe j = .ok im)
    (hss : sreq.seed = some sd) (hscount : sreq.num_images = n) :
    seedLadderHolds (flux_generate_images genv freq s) sd n s.nextUuid
      "flux" ∧
    seedLadderHolds (sdxl_generate_images genv sreq s) sd n s.nextUuid
      "sdxl" := by
  have hbasef : baseSeed genv.randDraw freq.seed = sd := by
    rw [hfs]
    rfl
  have hbases : baseSeed genv.randDraw sreq.seed = sd := by
    rw [hss]
    rfl
  constructor
  · obtain ⟨imgs, hres, hfiles, hgc, hrn, hsv⟩ :=
      flux_generate_ok genv freq s hw hh hacq
        (fun j hj => hok j (by rw [hfcount] at hj; exact hj))
    refine ⟨{ images := imgs, seed := baseSeed genv.randDraw freq.seed },
      hres, hbasef, ?_, ?_⟩
    · rw [hgc, hfcount, hbasef, List.map_map, List.range_eq_range']
      exact List.map_congr_left (fun a _ => rfl)
    · show imgs.map ImageData.filename = _
      rw [hfiles, hfcount, List.range'_eq_map_range, List.map_map]
      exact List.map_congr_left (fun a _ => rfl)
  · obtain ⟨imgs, hres, hfiles, hgc, hrn, hsv⟩ :=
      sdxl_generate_ok genv sreq s
        (fun j hj => hok j (by rw [hscount] at hj; exact hj))
    refine ⟨{ images := imgs, seed := baseSeed genv.randDraw sreq.seed },
      hres, hbases, ?_, ?_⟩
    · rw [hgc, hscount, hbases, List.map_map, List.range_eq_range']
      exact List.map_congr_left (fun a _ => rfl)
    · show imgs.map ImageData.filename = _
      rw [hfiles, hscount, List.range'_eq_map_range, List.map_map]
      exact List.map_congr_left (fun a _ => rfl)

/-- Witness for C3: seed 42, two images, on both routes. -/
theorem c3_explicit_seed_ladder_witness :
    seedLadderHolds
      (flux_generate_images
        ⟨⟨true, 0, true, false⟩, 0, fun _ => .ok ⟨[]⟩, fun i _ _ => i⟩
        { prompt := "p", seed := some 42, num_images := 2 } initState)
      42 2 initState.nextUuid "flux" ∧
    seedLadderHolds
      (sdxl_generate_images
        ⟨⟨true, 0, true, false⟩, 0, fun _ => .ok ⟨[]⟩, fun i _ _ => i⟩
        { prompt := "p", seed := some 42, num_images := 2 } initState)
      42 2 initState.nextUuid "sdxl" :=
  c3_explicit_seed_ladder
    ⟨⟨true, 0, true, false⟩, 0, fun _ => .ok ⟨[]⟩, fun i _ _ => i⟩
    { prompt := "p", seed := some 42, num_images := 2 }
    { prompt := "p", seed := some 42, num_images := 2 } initState 42 2
    rfl rfl (by decide) (by decide) (Or.inr ⟨by decide, rfl⟩)
    (fun j hj => ⟨⟨[]⟩, rfl⟩) rfl rfl

/-- C10: for every request omitting the seed (on either family), the base
seed is drawn exactly once (a single rand event), is the draw reduced into
[0, 10 ^ 9), is reported in the response seed field, and every per-image
seed is derived from that single draw by the + i offset rule. -/
theorem c10_drawn_seed (genv : GenEnv) (freq : FluxGenerateRequest)
    (sreq : GenerateRequest) (s : ProcState) (n : Nat)
    (hfs : freq.seed = none) (hfcount : freq.num_images = n)
    (hw : freq.width % 16 = 0) (hh : freq.height % 16 = 0)
    (hacq : fluxAcqOk genv.env s)
    (hok : ∀ j, j < n → ∃ im, genv.pipe j = .ok im)
    (hss : sreq.seed = none) (hscount : sreq.num_images = n) :
    drawnSeedHolds (flux_generate_images genv freq s) genv.randDraw n ∧
    drawnSeedHolds (sdxl_generate_images genv sreq s) genv.randDraw n := by
  have hmod : genv.randDraw % 10 ^ 9 < 10 ^ 9 :=
    Nat.mod_lt _ (by norm_num)
  have hbasef : baseSeed genv.randDraw freq.seed =
      ((genv.randDraw % 10 ^ 9 : Nat) : ℤ) := by
    rw [hfs]
    rfl
  have hbases : baseSeed genv.randDraw sreq.seed =
      ((genv.randDraw % 10 ^ 9 : Nat) : ℤ) := by
    rw [hss]
    rfl
  constructor
  · obtain ⟨imgs, hres, hfiles, hgc, hrn, hsv⟩ :=
      flux_generate_ok genv freq s hw hh hacq
        (fun j hj => hok j (by rw [hfcount] at hj; exact hj))
    refine ⟨{ images := imgs, seed := baseSeed genv.randDraw freq.seed },
      hres, hbasef, Int.natCast_nonneg _, by exact_mod_cast hmod, ?_, ?_⟩
    · rw [hrn, hfs, if_pos rfl]
      rfl
    · rw [hgc, hfcount, hbasef, List.map_map, List.range_eq_range']
      exact List.map_congr_left (fun a _ => rfl)
  · obtain ⟨imgs, hres, hfiles, hgc, hrn, hsv⟩ :=
      sdxl_generate_ok genv sreq s
        (fun j hj => hok j (by rw [hscount] at hj; exact hj))
    refine ⟨{ images := imgs, seed := baseSeed genv.randDraw sreq.seed },
      hres, hbases, Int.natCast_nonneg _, by exact_mod_cast hmod, ?_, ?_⟩
    · rw [hrn, hss, if_pos rfl]
      rfl
    · rw [hgc, hscount, hbases, List.map_map, List.range_eq_range']
      exact List.map_congr_left (fun a _ => rfl)

/-- Witness for C10: omitted seed, rand draw 7, two images, both routes. -/
theorem c10_drawn_seed_witness :
    drawnSeedHolds
      (flux_generate_images
        ⟨⟨true, 0, true, false⟩, 7, fun _ => .ok ⟨[]⟩, fun i _ _ => i⟩
        { prompt := "p", num_images := 2 } initState) 7 2 ∧
    drawnSeedHolds
      (sdxl_generate_images
        ⟨⟨true, 0, true, false⟩, 7, fun _ => .ok ⟨[]⟩, fun i _ _ => i⟩
        { prompt := "p", num_images := 2 } initState) 7 2 :=
  c10_drawn_seed
    ⟨⟨true, 0, true, false⟩, 7, fun _ => .ok ⟨[]⟩, fun i _ _ => i⟩
    { prompt := "p", num_images := 2 } { prompt := "p", num_images := 2 }
    initState 2 rfl rfl (by decide) (by decide) (Or.inr ⟨by decide, rfl⟩)
    (fun j hj => ⟨⟨[]⟩, rfl⟩) rfl rfl

end DiffSynth
